import Mathlib

/-!
Shallow embedding of `mortgagekit/calculator.py` (py-mortgagekit).

Conventions of the embedding:
* Python `Decimal`, `Money` amounts and `float` values are modelled as exact
  real numbers (`ℝ`).  `math.pow` on floats is modelled by `Real.rpow` for a
  real exponent and by `zpow` where the exponent is a Python `int`.
* Python `int` fields are modelled by `ℤ`; the amortization year is modelled
  by `ℕ` (for `t ≤ 0` the nested `range` loops are empty, so a negative year
  behaves exactly like `0`).
* `datetime.date` plus `dateutil.relativedelta` arithmetic is modelled by the
  `Date` structure below (month addition clamps the day to the end of the
  month, exactly as `relativedelta` does).
* Code that raises a Python exception is modelled with `Except String`.
* For `payment_frequency = 0` the Python rate conversion raises
  `ZeroDivisionError`; the embedding uses Lean's total real division there
  (the claims under study only concern calculators whose rate conversion
  succeeds, and a frequency-zero schedule has no records either way).
-/

namespace MortgageKit

/-! ## Frequency constants (module-level constants of `calculator.py`) -/

def MORTGAGEKIT_ANNUAL : ℤ := 1
def MORTGAGEKIT_SEMI_ANNUAL : ℤ := 2
def MORTGAGEKIT_QUARTER : ℤ := 4
def MORTGAGEKIT_BI_MONTH : ℤ := 6
def MORTGAGEKIT_MONTH : ℤ := 12
def MORTGAGEKIT_BI_WEEK : ℤ := 26
def MORTGAGEKIT_WEEK : ℤ := 52

/-! ## Calendar dates and `relativedelta` arithmetic -/

structure Date where
  year : ℕ
  month : ℕ
  day : ℕ
deriving DecidableEq

def isLeapYear (y : ℕ) : Bool :=
  y % 4 == 0 && (y % 100 != 0 || y % 400 == 0)

def daysInMonth (y m : ℕ) : ℕ :=
  if m = 2 then (if isLeapYear y then 29 else 28)
  else if m = 4 ∨ m = 6 ∨ m = 9 ∨ m = 11 then 30
  else 31

/-- `date + relativedelta(months=n)`: advance the month with year carry and
clamp the day to the length of the target month. -/
def Date.addMonths (d : Date) (n : ℕ) : Date :=
  let t := d.month - 1 + n
  let y := d.year + t / 12
  let mo := t % 12 + 1
  ⟨y, mo, min d.day (daysInMonth y mo)⟩

def Date.nextDay (d : Date) : Date :=
  if d.day < daysInMonth d.year d.month then ⟨d.year, d.month, d.day + 1⟩
  else if d.month < 12 then ⟨d.year, d.month + 1, 1⟩
  else ⟨d.year + 1, 1, 1⟩

/-- `date + relativedelta(weeks=w)` is `date + 7*w` days. -/
def Date.addDays (d : Date) (n : ℕ) : Date :=
  Date.nextDay^[n] d

/-- The `if/elif` dispatch on `self._payment_frequency` inside the schedule
loop of `mortgage_payment_schedule`.  (CPython compares with `is`, but the
seven constants are small cached ints, so `is` coincides with `==` there.)
An unrecognized frequency leaves the date unchanged (no `else` branch). -/
def advance_payment_date (freq : ℤ) (d : Date) : Date :=
  if freq = MORTGAGEKIT_ANNUAL then d.addMonths 12
  else if freq = MORTGAGEKIT_SEMI_ANNUAL then d.addMonths 6
  else if freq = MORTGAGEKIT_QUARTER then d.addMonths 4
  else if freq = MORTGAGEKIT_BI_MONTH then d.addMonths 2
  else if freq = MORTGAGEKIT_MONTH then d.addMonths 1
  else if freq = MORTGAGEKIT_BI_WEEK then d.addDays 14
  else if freq = MORTGAGEKIT_WEEK then d.addDays 7
  else d

/-! ## The calculator's constructed state (`MortgageCalculator.__init__`) -/

structure MortgageCalculator where
  total_amount : ℝ
  down_payment_amount : ℝ
  amortization_year : ℕ
  annual_interest_rate : ℝ
  payment_frequency : ℤ
  compounding_period : ℤ
  first_payment_date : Date

/-- `self._loan_amount = self._total_amount - self._down_payment_amount`. -/
def loan_amount (m : MortgageCalculator) : ℝ :=
  m.total_amount - m.down_payment_amount

/-- CPython identity comparison `moneyObject is 0`: a `Money` instance is
never the same object as the int literal `0`, so the test is always false. -/
def money_is_literal_zero (_x : ℝ) : Bool :=
  false

/-- `percent_of_loan_financed`.  The guard `loanPurchaseAmount is 0` never
fires (identity comparison of a `Money` with an `int`), so a zero total
amount reaches the `Money / Money` division, which raises
`decimal.DivisionByZero`. -/
noncomputable def percent_of_loan_financed (m : MortgageCalculator) :
    Except String ℝ :=
  if money_is_literal_zero m.total_amount then Except.ok 0
  else if m.total_amount = 0 then Except.error "DivisionByZero"
  else Except.ok ((m.total_amount - m.down_payment_amount) / m.total_amount * 100)

/-- `interest_rate_per_payment_frequency`:
`y = c / f` (float division), `x = i / c + 1`, `z = math.pow(x, y) - 1`. -/
noncomputable def interest_rate_per_payment_frequency
    (m : MortgageCalculator) : ℝ :=
  let y : ℝ := (m.compounding_period : ℝ) / (m.payment_frequency : ℝ)
  let x : ℝ := m.annual_interest_rate / (m.compounding_period : ℝ) + 1
  x ^ y - 1

/-- `total_number_of_payments_per_frequency = amortYear * payment_frequency`. -/
def total_number_of_payments_per_frequency (m : MortgageCalculator) : ℤ :=
  (m.amortization_year : ℤ) * m.payment_frequency

/-- `mortgage_payment_per_payment_frequency`:
`top = r * (r+1)^n`, `bottom = (r+1)^n - 1`; returns `0` when `bottom == 0`,
else `(top / bottom) * p`. -/
noncomputable def mortgage_payment_per_payment_frequency
    (m : MortgageCalculator) : ℝ :=
  let r := interest_rate_per_payment_frequency m
  let n := total_number_of_payments_per_frequency m
  let p := loan_amount m
  let top := r * (r + 1) ^ n
  let bottom := (r + 1) ^ n - 1
  if bottom = 0 then 0 else top / bottom * p

/-! ## The payment schedule (`mortgage_payment_schedule`) -/

/-- One entry of the returned `paymentSchedule` list (the dict appended at
the end of each loop iteration). -/
structure PeriodRecord where
  year : ℕ
  interval : ℕ
  payment : ℝ
  interest : ℝ
  principle : ℝ
  loan_balance : ℝ
  totalPaidToInterest : ℝ
  totalPaidToBank : ℝ
  paymentData : Date

/-- The loop-carried state of `mortgage_payment_schedule`. -/
structure SchedState where
  loanBalance : ℝ
  totalPaidToInterest : ℝ
  totalPaidToBank : ℝ
  current_payment_date : Date

/-- State before the first loop iteration. -/
def schedInit (m : MortgageCalculator) : SchedState :=
  { loanBalance := loan_amount m
    totalPaidToInterest := 0
    totalPaidToBank := 0
    current_payment_date := m.first_payment_date }

/-- One iteration of the inner loop body, as a state transformer:
`interest = balance * rate`, `principle = payment - interest`,
`balance -= principle`, cumulatives updated additively, date advanced. -/
def nextState (payment rate : ℝ) (freq : ℤ) (st : SchedState) : SchedState :=
  let interestAmount := st.loanBalance * rate
  let principleAmount := payment - interestAmount
  { loanBalance := st.loanBalance - principleAmount
    totalPaidToInterest := interestAmount + st.totalPaidToInterest
    totalPaidToBank := payment + st.totalPaidToBank
    current_payment_date := advance_payment_date freq st.current_payment_date }

/-- The record appended by one iteration of the loop body, given the
pre-iteration state `st` and the pair `(amortizationYear, payment)` of loop
indices.  Its running fields are exactly those of `nextState … st`. -/
def mkRecord (payment rate : ℝ) (freq : ℤ) (yi : ℕ × ℕ) (st : SchedState) :
    PeriodRecord :=
  let interestAmount := st.loanBalance * rate
  let principleAmount := payment - interestAmount
  { year := yi.1
    interval := yi.2
    payment := payment
    interest := interestAmount
    principle := principleAmount
    loan_balance := st.loanBalance - principleAmount
    totalPaidToInterest := interestAmount + st.totalPaidToInterest
    totalPaidToBank := payment + st.totalPaidToBank
    paymentData := advance_payment_date freq st.current_payment_date }

/-- The sequence of `(amortizationYear, payment)` index pairs visited by the
nested loops `for amortizationYear in range(1, years+1): for payment in
range(1, frequency+1)`. -/
def scheduleIndices (years : ℕ) (freq : ℤ) : List (ℕ × ℕ) :=
  (List.range years).flatMap fun y => (List.range freq.toNat).map fun p => (y + 1, p + 1)

/-- The loop of `mortgage_payment_schedule`: fold the body over the index
pairs, collecting the appended records. -/
def runSchedule (payment rate : ℝ) (freq : ℤ) :
    List (ℕ × ℕ) → SchedState → List PeriodRecord
  | [], _ => []
  | yi :: rest, st =>
      mkRecord payment rate freq yi st ::
        runSchedule payment rate freq rest (nextState payment rate freq st)

/-- `mortgage_payment_schedule`. -/
noncomputable def mortgage_payment_schedule (m : MortgageCalculator) :
    List PeriodRecord :=
  runSchedule (mortgage_payment_per_payment_frequency m)
    (interest_rate_per_payment_frequency m)
    m.payment_frequency
    (scheduleIndices m.amortization_year m.payment_frequency)
    (schedInit m)

/-! ## The frequency normalizers

Both functions consist of a first `if/elif` chain covering frequencies
1, 2, 4, 6 and a SECOND chain opened by a fresh `if` on frequency 12, with
`elif` branches for 26 and 52 and an `else: raise`.  Because the second
chain starts with `if` (not `elif`), control always reaches it: any value
assigned by the first chain is dead, and for frequencies 1, 2, 4, 6 (and
for any value outside the enumeration) the second chain's `else` raises. -/

/-- `monthly_mortgage_payment`.  `deadFirstChain` is the value assigned by
the first `if/elif` chain of the source, retained only to mirror the source
text: it is unconditionally shadowed by the second chain. -/
noncomputable def monthly_mortgage_payment (m : MortgageCalculator) :
    Except String ℝ :=
  let mortgage_payment := mortgage_payment_per_payment_frequency m
  let frequency := m.payment_frequency
  let _deadFirstChain : Option ℝ :=
    if frequency = MORTGAGEKIT_ANNUAL then some (mortgage_payment / 12)
    else if frequency = MORTGAGEKIT_SEMI_ANNUAL then some (mortgage_payment / 6)
    else if frequency = MORTGAGEKIT_QUARTER then some (mortgage_payment / 4)
    else if frequency = MORTGAGEKIT_BI_MONTH then some (mortgage_payment / 2)
    else none
  if frequency = MORTGAGEKIT_MONTH then Except.ok mortgage_payment
  else if frequency = MORTGAGEKIT_BI_WEEK then
    Except.ok (mortgage_payment * 26 / 12)
  else if frequency = MORTGAGEKIT_WEEK then
    Except.ok (mortgage_payment * 52 / 12)
  else Except.error "WARNING: Unsupported payment frequency type!"

/-- `annual_mortgage_payment`, with the same dead first chain. -/
noncomputable def annual_mortgage_payment (m : MortgageCalculator) :
    Except String ℝ :=
  let mortgage_payment := mortgage_payment_per_payment_frequency m
  let frequency := m.payment_frequency
  let _deadFirstChain : Option ℝ :=
    if frequency = MORTGAGEKIT_ANNUAL then some mortgage_payment
    else if frequency = MORTGAGEKIT_SEMI_ANNUAL then some (mortgage_payment * 2)
    else if frequency = MORTGAGEKIT_QUARTER then some (mortgage_payment * 4)
    else if frequency = MORTGAGEKIT_BI_MONTH then some (mortgage_payment * 6)
    else none
  if frequency = MORTGAGEKIT_MONTH then Except.ok (mortgage_payment * 12)
  else if frequency = MORTGAGEKIT_BI_WEEK then
    Except.ok (mortgage_payment * 26)
  else if frequency = MORTGAGEKIT_WEEK then
    Except.ok (mortgage_payment * 52)
  else Except.error "WARNING: Unsupported payment frequency type!"

/-! ## Predicates used to state the claims -/

/-- `r` is the record the loop body produces from a pre-iteration state with
loan balance `bal` and cumulatives `tpi`, `tpb`, under payment `pay` and
periodic rate `rate`:  `interest = bal × rate`, `principle = pay − interest`,
stored balance `= bal − principle`, cumulatives updated additively. -/
def recordFromState (pay rate bal tpi tpb : ℝ) (r : PeriodRecord) : Prop :=
  r.interest = bal * rate ∧
  r.principle = pay - r.interest ∧
  r.loan_balance = bal - r.principle ∧
  r.totalPaidToInterest = tpi + r.interest ∧
  r.totalPaidToBank = tpb + pay

/-- Adjacent-record relation: record `r₂` is produced from the state stored
in record `r₁`. -/
def stepRel (pay rate : ℝ) (r₁ r₂ : PeriodRecord) : Prop :=
  recordFromState pay rate r₁.loan_balance r₁.totalPaidToInterest
    r₁.totalPaidToBank r₂

/-- Pointwise predicate over a record list, without binders. -/
def AllRecords (p : PeriodRecord → Prop) : List PeriodRecord → Prop
  | [] => True
  | r :: rest => p r ∧ AllRecords p rest

/-- The implicit accounting invariant of claim C10. -/
def accountingInvariant (principal : ℝ) (r : PeriodRecord) : Prop :=
  r.totalPaidToBank = r.totalPaidToInterest + (principal - r.loan_balance) ∧
  r.interest + r.principle = r.payment

/-! ## Concrete calculators used as witnesses and counterexamples -/

/-- One-year loan at each payment frequency, first payment date 2008-01-01
(the spec's canonical construction inputs, with a one-year term). -/
noncomputable def calcAnnual : MortgageCalculator :=
  ⟨250000, 50000, 1, 4 / 100, 1, 2, ⟨2008, 1, 1⟩⟩

noncomputable def calcSemiAnnual : MortgageCalculator :=
  ⟨250000, 50000, 1, 4 / 100, 2, 2, ⟨2008, 1, 1⟩⟩

noncomputable def calcQuarter : MortgageCalculator :=
  ⟨250000, 50000, 1, 4 / 100, 4, 2, ⟨2008, 1, 1⟩⟩

noncomputable def calcBiMonth : MortgageCalculator :=
  ⟨250000, 50000, 1, 4 / 100, 6, 2, ⟨2008, 1, 1⟩⟩

noncomputable def calcMonth : MortgageCalculator :=
  ⟨250000, 50000, 1, 4 / 100, 12, 2, ⟨2008, 1, 1⟩⟩

noncomputable def calcBiWeek : MortgageCalculator :=
  ⟨250000, 50000, 1, 4 / 100, 26, 2, ⟨2008, 1, 1⟩⟩

noncomputable def calcWeek : MortgageCalculator :=
  ⟨250000, 50000, 1, 4 / 100, 52, 2, ⟨2008, 1, 1⟩⟩

/-- Payment frequency 3: outside the seven-value enumeration. -/
noncomputable def calcFreq3 : MortgageCalculator :=
  ⟨250000, 50000, 1, 4 / 100, 3, 2, ⟨2008, 1, 1⟩⟩

/-- Total amount 0: the failing input of claim C3. -/
noncomputable def calcZeroTotal : MortgageCalculator :=
  ⟨0, 0, 1, 4 / 100, 12, 2, ⟨2008, 1, 1⟩⟩

/-- A one-period, zero-interest loan whose schedule values are all concrete:
rate 0, payment 0, one record. -/
noncomputable def calcSimple : MortgageCalculator :=
  ⟨100, 0, 1, 0, 1, 2, ⟨2008, 1, 1⟩⟩

/-- The single record of `calcSimple`'s payment schedule. -/
noncomputable def simpleRecord : PeriodRecord :=
  ⟨1, 1, 0, 0, 0, 100, 0, 0, ⟨2009, 1, 1⟩⟩

/-! ## Structural lemmas about the schedule loop -/

theorem runSchedule_length (p r : ℝ) (f : ℤ) (l : List (ℕ × ℕ)) :
    ∀ st : SchedState, (runSchedule p r f l st).length = l.length := by
  induction l with
  | nil => intro st; rfl
  | cons yi rest ih =>
      intro st
      simp only [runSchedule, List.length_cons, ih]

theorem scheduleIndices_length (years : ℕ) (freq : ℤ) :
    (scheduleIndices years freq).length = years * freq.toNat := by
  simp [scheduleIndices, List.length_flatMap, Function.comp_def, List.map_const',
    List.sum_replicate, smul_eq_mul, Nat.mul_comm]

theorem schedule_length (m : MortgageCalculator) :
    (mortgage_payment_schedule m).length =
      m.amortization_year * m.payment_frequency.toNat := by
  rw [mortgage_payment_schedule, runSchedule_length, scheduleIndices_length]

theorem runSchedule_getElem? (p r : ℝ) (f : ℤ) (l : List (ℕ × ℕ)) :
    ∀ (st : SchedState) (k : ℕ),
      (runSchedule p r f l st)[k]? =
        l[k]?.map fun yi => mkRecord p r f yi ((nextState p r f)^[k] st) := by
  induction l with
  | nil => intro st k; rfl
  | cons yi rest ih =>
      intro st k
      cases k with
      | zero => simp [runSchedule]
      | succ k' =>
          simp only [runSchedule, List.getElem?_cons_succ, ih,
            Function.iterate_succ_apply]

theorem iterate_nextState_totalPaidToBank (p r : ℝ) (f : ℤ) (st : SchedState) :
    ∀ k : ℕ, ((nextState p r f)^[k] st).totalPaidToBank =
      st.totalPaidToBank + k * p := by
  intro k
  induction k with
  | zero => simp
  | succ k ih =>
      rw [Function.iterate_succ_apply']
      simp only [nextState]
      rw [ih]
      push_cast
      ring

theorem mkRecord_recordFromState (p r : ℝ) (f : ℤ) (yi : ℕ × ℕ)
    (st : SchedState) :
    recordFromState p r st.loanBalance st.totalPaidToInterest
      st.totalPaidToBank (mkRecord p r f yi st) := by
  refine ⟨rfl, rfl, rfl, ?_, ?_⟩ <;>
    simp [mkRecord, add_comm]

theorem stepRel_mkRecord (p r : ℝ) (f : ℤ) (yi yi' : ℕ × ℕ) (st : SchedState) :
    stepRel p r (mkRecord p r f yi st)
      (mkRecord p r f yi' (nextState p r f st)) :=
  mkRecord_recordFromState p r f yi' (nextState p r f st)

theorem chain'_runSchedule (p r : ℝ) (f : ℤ) (l : List (ℕ × ℕ)) :
    ∀ st : SchedState, List.Chain' (stepRel p r) (runSchedule p r f l st) := by
  induction l with
  | nil => intro st; exact List.chain'_nil
  | cons yi rest ih =>
      intro st
      cases rest with
      | nil => simp [runSchedule]
      | cons yi' rest' =>
          have h := ih (nextState p r f st)
          simp only [runSchedule] at h ⊢
          exact List.chain'_cons.mpr ⟨stepRel_mkRecord p r f yi yi' st, h⟩

theorem allRecords_runSchedule (p r : ℝ) (f : ℤ) (P : SchedState → Prop)
    (Q : PeriodRecord → Prop)
    (hstep : ∀ st : SchedState, P st → P (nextState p r f st))
    (hrec : ∀ (st : SchedState) (yi : ℕ × ℕ), P st → Q (mkRecord p r f yi st))
    (l : List (ℕ × ℕ)) :
    ∀ st : SchedState, P st → AllRecords Q (runSchedule p r f l st) := by
  induction l with
  | nil => intro st _; trivial
  | cons yi rest ih =>
      intro st hst
      exact ⟨hrec st yi hst, ih (nextState p r f st) (hstep st hst)⟩

theorem runSchedule_getLast_totalPaidToBank (p r : ℝ) (f : ℤ)
    (l : List (ℕ × ℕ)) :
    ∀ (st : SchedState) (rec : PeriodRecord),
      (runSchedule p r f l st).getLast? = some rec →
      rec.totalPaidToBank = st.totalPaidToBank + l.length * p := by
  induction l with
  | nil => intro st rec h; cases h
  | cons yi rest ih =>
      intro st rec h
      cases rest with
      | nil =>
          simp only [runSchedule, List.getLast?_singleton, Option.some.injEq] at h
          rw [← h]
          simp only [mkRecord, List.length_cons, List.length_nil]
          push_cast
          ring
      | cons yi' rest' =>
          simp only [runSchedule, List.getLast?_cons_cons] at h
          have h' : (runSchedule p r f (yi' :: rest')
              (nextState p r f st)).getLast? = some rec := h
          have := ih (nextState p r f st) rec h'
          rw [this]
          simp only [nextState, List.length_cons]
          push_cast
          ring

theorem payment_frequency_pos_of_schedule_ne_nil (m : MortgageCalculator)
    (h : mortgage_payment_schedule m ≠ []) : 0 < m.payment_frequency := by
  by_contra hF
  push_neg at hF
  apply h
  have hlen : (mortgage_payment_schedule m).length = 0 := by
    rw [schedule_length, Int.toNat_of_nonpos hF, Nat.mul_zero]
  exact List.length_eq_zero.mp hlen

/-! ## Concrete evaluations of `calcSimple` -/

theorem rate_calcSimple : interest_rate_per_payment_frequency calcSimple = 0 := by
  simp [interest_rate_per_payment_frequency, calcSimple, Real.one_rpow]

theorem payment_calcSimple :
    mortgage_payment_per_payment_frequency calcSimple = 0 := by
  simp [mortgage_payment_per_payment_frequency, rate_calcSimple, one_zpow]

theorem schedule_calcSimple :
    mortgage_payment_schedule calcSimple = [simpleRecord] := by
  simp only [mortgage_payment_schedule, payment_calcSimple, rate_calcSimple]
  rw [show scheduleIndices calcSimple.amortization_year
      calcSimple.payment_frequency = [(1, 1)] from rfl]
  simp only [runSchedule, mkRecord, schedInit, simpleRecord, loan_amount,
    calcSimple]
  norm_num
  rfl

/-! ## Claim theorems -/

/-- C7: for every calculator with amortization term `t ≥ 0` years (the term
is a natural number here) and payment frequency `f ≥ 1`, the schedule has
exactly `t × f` records — the nested loops always run the full count, with
no early termination on a zero or negative balance (the length depends only
on `t` and `f`, never on the monetary state) — and
`total_number_of_payments_per_frequency` returns exactly the integer
`t × f`. -/
theorem C7_schedule_length_exact (m : MortgageCalculator)
    (hf : 1 ≤ m.payment_frequency) :
    ((mortgage_payment_schedule m).length : ℤ) =
      (m.amortization_year : ℤ) * m.payment_frequency ∧
    total_number_of_payments_per_frequency m =
      (m.amortization_year : ℤ) * m.payment_frequency := by
  refine ⟨?_, rfl⟩
  rw [schedule_length]
  push_cast
  rw [Int.toNat_of_nonneg (by omega)]

theorem C7_schedule_length_exact_witness :
    1 ≤ calcSimple.payment_frequency ∧
    (((mortgage_payment_schedule calcSimple).length : ℤ) =
      (calcSimple.amortization_year : ℤ) * calcSimple.payment_frequency ∧
     total_number_of_payments_per_frequency calcSimple =
      (calcSimple.amortization_year : ℤ) * calcSimple.payment_frequency) :=
  ⟨by decide, C7_schedule_length_exact calcSimple (by decide)⟩

/-- C6: in every schedule, each record carries the single per-period payment
of the Payment Solver; the first record is produced from the initial state
(balance = principal, cumulatives = 0); and every later record is produced
from the state stored in its predecessor by `interest = balance × rate`,
`principle = payment − interest`, `balance −= principle`, with the two
cumulatives updated additively. -/
theorem C6_schedule_recurrence (m : MortgageCalculator) :
    AllRecords
      (fun rec => rec.payment = mortgage_payment_per_payment_frequency m)
      (mortgage_payment_schedule m) ∧
    Option.elim (mortgage_payment_schedule m).head? True
      (recordFromState (mortgage_payment_per_payment_frequency m)
        (interest_rate_per_payment_frequency m) (loan_amount m) 0 0) ∧
    List.Chain'
      (stepRel (mortgage_payment_per_payment_frequency m)
        (interest_rate_per_payment_frequency m))
      (mortgage_payment_schedule m) := by
  refine ⟨?_, ?_, ?_⟩
  · simp only [mortgage_payment_schedule]
    exact allRecords_runSchedule _ _ _ (fun _ => True)
      (fun rec => rec.payment = mortgage_payment_per_payment_frequency m)
      (fun _ _ => trivial) (fun st yi _ => rfl) _ _ trivial
  · simp only [mortgage_payment_schedule]
    cases hl : scheduleIndices m.amortization_year m.payment_frequency with
    | nil => simp [runSchedule]
    | cons yi rest =>
        simp only [runSchedule, List.head?_cons, Option.elim]
        exact mkRecord_recordFromState _ _ _ _ _
  · simp only [mortgage_payment_schedule]
    exact chain'_runSchedule _ _ _ _ _

/-- C10: every record of any schedule satisfies
`totalPaidToBank = totalPaidToInterest + (principal − loan_balance)`, and in
every record the interest portion plus the principal portion equals the
payment amount. -/
theorem C10_accounting_invariant (m : MortgageCalculator) :
    AllRecords (accountingInvariant (loan_amount m))
      (mortgage_payment_schedule m) := by
  simp only [mortgage_payment_schedule]
  refine allRecords_runSchedule _ _ _
    (fun st => st.totalPaidToBank =
      st.totalPaidToInterest + (loan_amount m - st.loanBalance))
    _ ?_ ?_ _ _ ?_
  · intro st hst
    simp only [nextState]
    linarith
  · intro st yi hst
    simp only [accountingInvariant, mkRecord]
    constructor
    · linarith
    · ring
  · simp [schedInit]

/-- C8: whenever the schedule is non-empty, the final record's cumulative
total paid to the bank equals the per-period payment times the total payment
count `t × f` (the equality is exact in the real-number model, which is the
"within floating tolerance" reading of the claim). -/
theorem C8_final_total_paid (m : MortgageCalculator) (rec : PeriodRecord)
    (h : (mortgage_payment_schedule m).getLast? = some rec) :
    rec.totalPaidToBank =
      mortgage_payment_per_payment_frequency m *
        (total_number_of_payments_per_frequency m : ℝ) := by
  have hne : mortgage_payment_schedule m ≠ [] := by
    intro he
    rw [he] at h
    exact Option.noConfusion h
  have hF : 0 < m.payment_frequency :=
    payment_frequency_pos_of_schedule_ne_nil m hne
  have hlen := runSchedule_getLast_totalPaidToBank
    (mortgage_payment_per_payment_frequency m)
    (interest_rate_per_payment_frequency m)
    m.payment_frequency
    (scheduleIndices m.amortization_year m.payment_frequency)
    (schedInit m) rec h
  rw [hlen, scheduleIndices_length]
  have hcast : ((m.payment_frequency.toNat : ℕ) : ℝ) =
      ((m.payment_frequency : ℤ) : ℝ) := by
    exact_mod_cast congrArg (fun z : ℤ => (z : ℝ))
      (Int.toNat_of_nonneg hF.le)
  simp only [schedInit, total_number_of_payments_per_frequency]
  push_cast [hcast]
  ring

theorem C8_final_total_paid_witness :
    (mortgage_payment_schedule calcSimple).getLast? = some simpleRecord ∧
    simpleRecord.totalPaidToBank =
      mortgage_payment_per_payment_frequency calcSimple *
        (total_number_of_payments_per_frequency calcSimple : ℝ) := by
  have h : (mortgage_payment_schedule calcSimple).getLast? =
      some simpleRecord := by
    rw [schedule_calcSimple]
    rfl
  exact ⟨h, C8_final_total_paid calcSimple simpleRecord h⟩

/-- C4: for every calculator whose rate conversion divides by neither zero
compounding period nor zero payment frequency, with effective periodic rate
`r`, payment count `n` and principal `p`, the Payment Solver returns
`p × (r(1+r)^n) / ((1+r)^n − 1)` when the denominator `(1+r)^n − 1` is
nonzero, and returns `0` without raising when it is zero — in particular
when `r = 0` or `n = 0`. -/
theorem C4_payment_formula (m : MortgageCalculator)
    (_hc : m.compounding_period ≠ 0) (_hf : m.payment_frequency ≠ 0) :
    ((1 + interest_rate_per_payment_frequency m) ^
        total_number_of_payments_per_frequency m - 1 ≠ 0 →
      mortgage_payment_per_payment_frequency m =
        loan_amount m *
          (interest_rate_per_payment_frequency m *
            (1 + interest_rate_per_payment_frequency m) ^
              total_number_of_payments_per_frequency m) /
          ((1 + interest_rate_per_payment_frequency m) ^
              total_number_of_payments_per_frequency m - 1)) ∧
    ((1 + interest_rate_per_payment_frequency m) ^
        total_number_of_payments_per_frequency m - 1 = 0 →
      mortgage_payment_per_payment_frequency m = 0) ∧
    (interest_rate_per_payment_frequency m = 0 →
      mortgage_payment_per_payment_frequency m = 0) ∧
    (total_number_of_payments_per_frequency m = 0 →
      mortgage_payment_per_payment_frequency m = 0) := by
  rw [add_comm (1 : ℝ) (interest_rate_per_payment_frequency m)]
  refine ⟨?_, ?_, ?_, ?_⟩
  · intro hne
    simp only [mortgage_payment_per_payment_frequency]
    rw [if_neg hne]
    ring
  · intro h0
    simp only [mortgage_payment_per_payment_frequency]
    rw [if_pos h0]
  · intro hr0
    simp [mortgage_payment_per_payment_frequency, hr0, one_zpow]
  · intro hn0
    simp [mortgage_payment_per_payment_frequency, hn0, zpow_zero]

theorem C4_payment_formula_witness :
    calcSimple.compounding_period ≠ 0 ∧ calcSimple.payment_frequency ≠ 0 ∧
    interest_rate_per_payment_frequency calcSimple = 0 ∧
    mortgage_payment_per_payment_frequency calcSimple = 0 :=
  ⟨by decide, by decide, rate_calcSimple,
    (C4_payment_formula calcSimple (by decide) (by decide)).2.2.1
      rate_calcSimple⟩

/-- C5: for every calculator with compounding periods per year `c > 0` and
payment periods per year `f > 0`, the Rate Converter returns
`(1 + i/c)^(c/f) − 1`, and for every non-negative nominal rate `i` the
result is non-negative. -/
theorem C5_rate_conversion (m : MortgageCalculator)
    (hc : 0 < m.compounding_period) (hf : 0 < m.payment_frequency) :
    interest_rate_per_payment_frequency m =
      (1 + m.annual_interest_rate / (m.compounding_period : ℝ)) ^
        ((m.compounding_period : ℝ) / (m.payment_frequency : ℝ)) - 1 ∧
    (0 ≤ m.annual_interest_rate →
      0 ≤ interest_rate_per_payment_frequency m) := by
  have hcR : (0 : ℝ) < (m.compounding_period : ℝ) := by exact_mod_cast hc
  have hfR : (0 : ℝ) < (m.payment_frequency : ℝ) := by exact_mod_cast hf
  constructor
  · simp only [interest_rate_per_payment_frequency]
    rw [add_comm (m.annual_interest_rate / (m.compounding_period : ℝ)) (1 : ℝ)]
  · intro hi
    simp only [interest_rate_per_payment_frequency]
    have h1 : (1 : ℝ) ≤ m.annual_interest_rate / (m.compounding_period : ℝ) + 1 := by
      have h0 : 0 ≤ m.annual_interest_rate / (m.compounding_period : ℝ) :=
        div_nonneg hi hcR.le
      linarith
    have h2 : (0 : ℝ) ≤ (m.compounding_period : ℝ) / (m.payment_frequency : ℝ) :=
      div_nonneg hcR.le hfR.le
    have h3 := Real.one_le_rpow h1 h2
    linarith

theorem C5_rate_conversion_witness :
    0 < calcSimple.compounding_period ∧ 0 < calcSimple.payment_frequency ∧
    (interest_rate_per_payment_frequency calcSimple =
      (1 + calcSimple.annual_interest_rate /
          (calcSimple.compounding_period : ℝ)) ^
        ((calcSimple.compounding_period : ℝ) /
          (calcSimple.payment_frequency : ℝ)) - 1 ∧
     (0 ≤ calcSimple.annual_interest_rate →
      0 ≤ interest_rate_per_payment_frequency calcSimple)) :=
  ⟨by decide, by decide, C5_rate_conversion calcSimple (by decide) (by decide)⟩

/-- C1 (evaluation): the second `if` chain of each normalizer restarts the
dispatch, so the four enumerated frequencies Annual=1, SemiAnnual=2,
Quarter=4 and BiMonth=6 fall into the `else: raise` branch and raise the
unsupported-frequency error, contrary to the claim; only Month=12,
BiWeek=26 and Week=52 return a value.  A value outside the enumeration
(here 3) raises, as the claim states. -/
theorem C1_normalizer_dispatch_eval :
    monthly_mortgage_payment calcAnnual =
      Except.error "WARNING: Unsupported payment frequency type!" ∧
    annual_mortgage_payment calcAnnual =
      Except.error "WARNING: Unsupported payment frequency type!" ∧
    monthly_mortgage_payment calcSemiAnnual =
      Except.error "WARNING: Unsupported payment frequency type!" ∧
    annual_mortgage_payment calcSemiAnnual =
      Except.error "WARNING: Unsupported payment frequency type!" ∧
    monthly_mortgage_payment calcQuarter =
      Except.error "WARNING: Unsupported payment frequency type!" ∧
    annual_mortgage_payment calcQuarter =
      Except.error "WARNING: Unsupported payment frequency type!" ∧
    monthly_mortgage_payment calcBiMonth =
      Except.error "WARNING: Unsupported payment frequency type!" ∧
    annual_mortgage_payment calcBiMonth =
      Except.error "WARNING: Unsupported payment frequency type!" ∧
    monthly_mortgage_payment calcMonth =
      Except.ok (mortgage_payment_per_payment_frequency calcMonth) ∧
    annual_mortgage_payment calcMonth =
      Except.ok (mortgage_payment_per_payment_frequency calcMonth * 12) ∧
    monthly_mortgage_payment calcBiWeek =
      Except.ok (mortgage_payment_per_payment_frequency calcBiWeek * 26 / 12) ∧
    annual_mortgage_payment calcBiWeek =
      Except.ok (mortgage_payment_per_payment_frequency calcBiWeek * 26) ∧
    monthly_mortgage_payment calcWeek =
      Except.ok (mortgage_payment_per_payment_frequency calcWeek * 52 / 12) ∧
    annual_mortgage_payment calcWeek =
      Except.ok (mortgage_payment_per_payment_frequency calcWeek * 52) ∧
    monthly_mortgage_payment calcFreq3 =
      Except.error "WARNING: Unsupported payment frequency type!" ∧
    annual_mortgage_payment calcFreq3 =
      Except.error "WARNING: Unsupported payment frequency type!" :=
  ⟨rfl, rfl, rfl, rfl, rfl, rfl, rfl, rfl, rfl, rfl, rfl, rfl, rfl, rfl,
    rfl, rfl⟩

/-- C2 (counterexample): at payment frequency Annual=1 there are no returned
values at all — `monthly_mortgage_payment` raises — so the claimed relation
`annual = monthly × 12` fails for that enumerated frequency. -/
theorem C2_counterexample_annual_frequency :
    ¬ ∃ a b : ℝ,
        annual_mortgage_payment calcAnnual = Except.ok a ∧
        monthly_mortgage_payment calcAnnual = Except.ok b ∧
        a = b * 12 := by
  rintro ⟨a, b, ha, hb, hab⟩
  have h : annual_mortgage_payment calcAnnual =
      Except.error "WARNING: Unsupported payment frequency type!" := rfl
  rw [h] at ha
  exact Except.noConfusion ha

/-- C2 (amended): for the three enumerated frequencies at which both
normalizers return — Month=12, BiWeek=26, Week=52 — the annual normalizer
returns exactly the monthly normalizer's value times 12; the remaining four
enumerated frequencies raise the unsupported-frequency error (claim C1). -/
theorem C2_annual_eq_monthly_times_twelve (m : MortgageCalculator)
    (hret : m.payment_frequency = MORTGAGEKIT_MONTH ∨
            m.payment_frequency = MORTGAGEKIT_BI_WEEK ∨
            m.payment_frequency = MORTGAGEKIT_WEEK) :
    annual_mortgage_payment m =
      Except.map (fun x => x * 12) (monthly_mortgage_payment m) := by
  rcases hret with h | h | h <;>
    simp [annual_mortgage_payment, monthly_mortgage_payment, h,
      MORTGAGEKIT_MONTH, MORTGAGEKIT_BI_WEEK, MORTGAGEKIT_WEEK,
      MORTGAGEKIT_ANNUAL, MORTGAGEKIT_SEMI_ANNUAL, MORTGAGEKIT_QUARTER,
      MORTGAGEKIT_BI_MONTH, Except.map, div_mul_cancel₀]

theorem C2_annual_eq_monthly_times_twelve_witness :
    calcMonth.payment_frequency = MORTGAGEKIT_MONTH ∧
    annual_mortgage_payment calcMonth =
      Except.map (fun x => x * 12) (monthly_mortgage_payment calcMonth) :=
  ⟨by decide,
    C2_annual_eq_monthly_times_twelve calcMonth (Or.inl (by decide))⟩

/-- C3 (evaluation): the zero-total guard compares a `Money` object with the
int literal `0` by identity, which is always false, so a calculator whose
total amount is 0 reaches the division and raises, contrary to the claim;
for a nonzero total the function returns
`(total − down payment) / total × 100` (here `80`). -/
theorem C3_percent_financed_eval :
    percent_of_loan_financed calcZeroTotal = Except.error "DivisionByZero" ∧
    percent_of_loan_financed calcMonth = Except.ok 80 := by
  constructor
  · simp [percent_of_loan_financed, money_is_literal_zero, calcZeroTotal]
  · rw [show percent_of_loan_financed calcMonth =
        Except.ok ((250000 - 50000) / 250000 * 100 : ℝ) by
      simp [percent_of_loan_financed, money_is_literal_zero, calcMonth]]
    norm_num

/-- The first schedule record, whenever it exists, carries the start date
advanced by one payment-frequency step (the code advances the date before
appending). -/
theorem head_paymentData (m : MortgageCalculator) (rec : PeriodRecord)
    (hh : (mortgage_payment_schedule m).head? = some rec) :
    rec.paymentData =
      advance_payment_date m.payment_frequency m.first_payment_date := by
  cases hl : scheduleIndices m.amortization_year m.payment_frequency with
  | nil =>
      simp only [mortgage_payment_schedule, hl, runSchedule] at hh
      exact Option.noConfusion hh
  | cons yi rest =>
      simp only [mortgage_payment_schedule, hl, runSchedule, List.head?_cons,
        Option.some.injEq] at hh
      rw [← hh]
      rfl

/-- C9: for every calculator whose first payment date is 2008-01-01 and
whose schedule is non-empty, the calendar date carried by the first record
is, per payment frequency: Annual→2009-01-01, SemiAnnual→2008-07-01,
Quarter→2008-05-01 (the as-implemented 4-month step), BiMonth→2008-03-01,
Month→2008-02-01, BiWeek→2008-01-15, Week→2008-01-08. -/
theorem C9_first_payment_dates (m : MortgageCalculator) (rec : PeriodRecord)
    (hd : m.first_payment_date = ⟨2008, 1, 1⟩)
    (hh : (mortgage_payment_schedule m).head? = some rec) :
    (m.payment_frequency = MORTGAGEKIT_ANNUAL →
      rec.paymentData = ⟨2009, 1, 1⟩) ∧
    (m.payment_frequency = MORTGAGEKIT_SEMI_ANNUAL →
      rec.paymentData = ⟨2008, 7, 1⟩) ∧
    (m.payment_frequency = MORTGAGEKIT_QUARTER →
      rec.paymentData = ⟨2008, 5, 1⟩) ∧
    (m.payment_frequency = MORTGAGEKIT_BI_MONTH →
      rec.paymentData = ⟨2008, 3, 1⟩) ∧
    (m.payment_frequency = MORTGAGEKIT_MONTH →
      rec.paymentData = ⟨2008, 2, 1⟩) ∧
    (m.payment_frequency = MORTGAGEKIT_BI_WEEK →
      rec.paymentData = ⟨2008, 1, 15⟩) ∧
    (m.payment_frequency = MORTGAGEKIT_WEEK →
      rec.paymentData = ⟨2008, 1, 8⟩) := by
  have h := head_paymentData m rec hh
  refine ⟨?_, ?_, ?_, ?_, ?_, ?_, ?_⟩ <;> intro hf <;> rw [h, hf, hd] <;> rfl

theorem C9_first_payment_dates_witness :
    calcSimple.first_payment_date = (⟨2008, 1, 1⟩ : Date) ∧
    (mortgage_payment_schedule calcSimple).head? = some simpleRecord ∧
    calcSimple.payment_frequency = MORTGAGEKIT_ANNUAL ∧
    simpleRecord.paymentData = ⟨2009, 1, 1⟩ := by
  have hh : (mortgage_payment_schedule calcSimple).head? = some simpleRecord := by
    rw [schedule_calcSimple]
    rfl
  exact ⟨rfl, hh, rfl,
    (C9_first_payment_dates calcSimple simpleRecord rfl hh).1 rfl⟩

end MortgageKit
